import Mathlib

/-!
# Verification of the PowerToys two-stage updater (`src/Update/PowerToys.Update.cpp`)

A shallow embedding of the updater executable: the persisted update state,
the installer path resolver (`ObtainInstallerPath`), the two stages
(`InstallNewVersionStage1`, `InstallNewVersionStage2`) and the entry point
(`WinMain`).  External collaborators (the persisted state store, the GitHub
metadata fetch and download, the filesystem, window lookup, process launch)
are modelled as an environment record of oracle values; every observable
action the program performs on them is recorded in an effect trace, so that
ordering and absence of effects can be stated and proved.
-/

namespace PowerToysUpdate

/-- The four persisted update statuses of `UpdateState` (header
`common/updating/updateState.h`, consumed by the source file). -/
inductive UpdateStatus
  | upToDate
  | readyToDownload
  | errorDownloading
  | readyToInstall
deriving DecidableEq, Repr

/-- The persisted update record: status, downloaded-installer filename and
the last-checked timestamp (modelled as a natural number instant). -/
structure UpdateState where
  state : UpdateStatus
  downloadedInstallerFilename : String
  githubUpdateLastCheckedDate : Option Nat
deriving DecidableEq, Repr

/-- Modelled from the spec: the stage-1 action token of the process
invocation surface (`cmdArg::UPDATE_NOW_LAUNCH_STAGE1`, defined in
`runner/UpdateUtils.h`, which is outside the provided sources). -/
def UPDATE_NOW_LAUNCH_STAGE1 : String := "powertoys_update_stage1"

/-- Modelled from the spec: the stage-2 action token
(`cmdArg::UPDATE_NOW_LAUNCH_STAGE2`). -/
def UPDATE_NOW_LAUNCH_STAGE2 : String := "powertoys_update_stage2"

/-- Modelled from the spec: the `restartHost` directive literal
(`cmdArg::UPDATE_STAGE2_RESTART_PT`). -/
def UPDATE_STAGE2_RESTART_PT : String := "restart_pt"

/-- Modelled from the spec: the `doNotRestartHost` directive literal
(`cmdArg::UPDATE_STAGE2_DONT_START_PT`). -/
def UPDATE_STAGE2_DONT_START_PT : String := "dont_start_pt"

/-- Modelled from the spec: the "you were just updated" launch argument
passed to the restarted host (`cmdArg::UPDATE_REPORT_SUCCESS`). -/
def UPDATE_REPORT_SUCCESS : String := "powertoys_update_report_success"

/-- `::towlower` restricted to the character set the program manipulates:
ASCII uppercase letters map to lowercase, every other character is
unchanged (the default "C" locale behaviour). -/
def towlower (c : Char) : Char :=
  if 'A' ≤ c ∧ c ≤ 'Z' then Char.ofNat (c.toNat + 32) else c

/-- `std::transform(begin, end, begin, ::towlower)` applied to a wide
string: lowercase every character. -/
def wstrToLower (s : String) : String := ⟨s.data.map towlower⟩

/-- `std::wstring::ends_with`: the pattern is a suffix of the character
sequence. -/
def wstrEndsWith (s pat : String) : Bool := pat.data.isSuffixOf s.data

/-- The installer technology inferred from the path, line 145 of the
source: `.msi` (after lowercasing) means the MSI package API, anything
else is treated as a WiX bootstrapper executable. -/
inductive InstallerTech
  | msiPackage
  | bootstrapperExecutable
deriving DecidableEq, Repr

/-- The dispatch decision of `InstallNewVersionStage2`: the path is
lowercased first (line 141), then tested with `ends_with(L".msi")`
(line 145). -/
def dispatchInstaller (installer_path : String) : InstallerTech :=
  if wstrEndsWith (wstrToLower installer_path) ".msi" then .msiPackage
  else .bootstrapperExecutable

/-- Observable actions of the program on its external collaborators, in
order of occurrence. -/
inductive Effect
  | getGithubVersionInfo
  | downloadNewVersion
  | copySelf (dst : String)
  | sendClose (window : Nat)
  | elevatedLaunch (file : String) (params : String)
  | runMsi (path : String)
  | runBootstrapper (path : String)
  | removeFile (path : String)
  | storeState (s : UpdateState)
  | launchProcess (file : String) (params : String)
deriving DecidableEq, Repr

/-- Oracle values for the external calls made by `InstallNewVersionStage2`:
the `MsiInstallProductW` return value (`ERROR_SUCCESS = 0`), whether
`ShellExecuteExW` on the bootstrapper succeeds, the bootstrapper process
exit code read by `GetExitCodeProcess`, whether the relaunch
`ShellExecuteExW` succeeds, and `timeutil::now()` at the success store. -/
structure Stage2Env where
  msiResult : Nat
  shellExecInstallerOk : Bool
  bootstrapperExitCode : Nat
  relaunchOk : Bool
  now : Nat
deriving DecidableEq, Repr

/-- The record written by the success branch of `InstallNewVersionStage2`
(lines 180-184): the state is reset (`state = {}`), the timestamp set to
now and the status to `upToDate`; the filename is the default empty
string. -/
def upToDateRecord (now : Nat) : UpdateState :=
  { state := .upToDate
    downloadedInstallerFilename := ""
    githubUpdateLastCheckedDate := some now }

/-- The record written by `WinMain`'s failure handlers (lines 221-225 and
235-239): filename cleared, timestamp set to now, status
`errorDownloading`. -/
def errorDownloadingRecord (now : Nat) : UpdateState :=
  { state := .errorDownloading
    downloadedInstallerFilename := ""
    githubUpdateLastCheckedDate := some now }

/-- Whether the dispatched installer run succeeds (lines 143-169): for an
MSI, `MsiInstallProductW` returned `ERROR_SUCCESS`; for a bootstrapper,
`ShellExecuteExW` succeeded and the awaited child exit code is `0`. -/
def installerSucceeds (env : Stage2Env) (installer_path : String) : Bool :=
  match dispatchInstaller installer_path with
  | .msiPackage => env.msiResult == 0
  | .bootstrapperExecutable => env.shellExecInstallerOk && (env.bootstrapperExitCode == 0)

/-- The effect of running the dispatched installer (the path was already
lowercased in place, so the external call receives the lowered path). -/
def stage2RunEffects (installer_path : String) : List Effect :=
  match dispatchInstaller installer_path with
  | .msiPackage => [.runMsi (wstrToLower installer_path)]
  | .bootstrapperExecutable => [.runBootstrapper (wstrToLower installer_path)]

/-- `InstallNewVersionStage2` (lines 139-199): lowercase the path, dispatch
and run the installer; on failure return `false` with no further effects;
on success remove the installer file (best effort), store the `upToDate`
record, and, when `launch_powertoys` is set, launch the freshly installed
`PowerToys.exe` with the report-success argument, returning that launch's
outcome. -/
def InstallNewVersionStage2 (env : Stage2Env) (installer_path : String)
    (install_path : String) (launch_powertoys : Bool) : Bool × List Effect :=
  let lowered := wstrToLower installer_path
  let success := installerSucceeds env installer_path
  let runEffs := stage2RunEffects installer_path
  if success then
    let effs := runEffs ++ [Effect.removeFile lowered,
      Effect.storeState (upToDateRecord env.now)]
    if launch_powertoys then
      (env.relaunchOk,
        effs ++ [Effect.launchProcess (install_path ++ "\\PowerToys.exe") UPDATE_REPORT_SUCCESS])
    else
      (true, effs)
  else
    (false, runEffs)

/-- The failure kinds of the installer path resolver.  The source reports
each as a distinct `Logger::error` message and a `std::nullopt` return;
the spec names them `MetadataUnavailable`, `NoUpdateAvailable`,
`DownloadFailed`, `MissingDownloadedInstaller`, `InvalidStateForInstall`. -/
inductive ResolveFailure
  | MetadataUnavailable
  | NoUpdateAvailable
  | DownloadFailed
  | MissingDownloadedInstaller
  | InvalidStateForInstall
deriving DecidableEq, Repr

/-- The result of `get_github_version_info_async`: either the metadata
carries a `new_version_download_info` alternative or it does not. -/
inductive VersionInfo
  | noUpdate
  | downloadInfo
deriving DecidableEq, Repr

/-- Oracle values for the external calls made by Stage 1: the persisted
state returned by `UpdateState::read`, the GitHub metadata result (`none`
models the `expected` error case), the result of `download_new_version`,
the pending-updates directory, the filesystem's answer to
`fs::is_regular_file`, whether `CopySelfToTempDir` succeeds and the temp
path it produces, the `FindWindowW` result for the tray-icon window class,
`get_module_folderpath`, and whether the elevated `ShellExecuteExW`
succeeds. -/
structure Stage1Env where
  persisted : UpdateState
  githubVersionInfo : Option VersionInfo
  downloadResult : Option String
  pendingUpdatesPath : String
  fileExists : String → Bool
  copySelfOk : Bool
  tempCopyPath : String
  ptMainWindow : Option Nat
  moduleFolderPath : String
  elevatedLaunchOk : Bool

/-- The path `ObtainInstallerPath` derives for a `readyToInstall` state
(line 82): the pending-updates directory joined with the persisted
filename. -/
def derivedInstallerPath (env : Stage1Env) : String :=
  env.pendingUpdatesPath ++ "\\" ++ env.persisted.downloadedInstallerFilename

/-- `ObtainInstallerPath` (lines 52-98): for `readyToDownload` or
`errorDownloading`, fetch the GitHub metadata and download; for
`readyToInstall`, return the derived path when the file exists, otherwise
fail; for any other status fail with the invalid-state error. -/
def ObtainInstallerPath (env : Stage1Env) :
    Except ResolveFailure String × List Effect :=
  if env.persisted.state = .readyToDownload ∨ env.persisted.state = .errorDownloading then
    match env.githubVersionInfo with
    | none => (.error .MetadataUnavailable, [.getGithubVersionInfo])
    | some .noUpdate => (.error .NoUpdateAvailable, [.getGithubVersionInfo])
    | some .downloadInfo =>
      match env.downloadResult with
      | none => (.error .DownloadFailed, [.getGithubVersionInfo, .downloadNewVersion])
      | some p => (.ok p, [.getGithubVersionInfo, .downloadNewVersion])
  else if env.persisted.state = .readyToInstall then
    if env.fileExists (derivedInstallerPath env) then
      (.ok (derivedInstallerPath env), [])
    else
      (.error .MissingDownloadedInstaller, [])
  else
    (.error .InvalidStateForInstall, [])

/-- The Stage-2 handoff argument string built by Stage 1 (lines 118-124):
the stage-2 token, the quoted installer path, the quoted install
directory, and the restart directive. -/
def stage1Arguments (installer moduleFolder directive : String) : String :=
  UPDATE_NOW_LAUNCH_STAGE2 ++ " \"" ++ installer ++ "\" \"" ++ moduleFolder
    ++ "\" " ++ directive

/-- `InstallNewVersionStage1` (lines 100-137): resolve the installer path
(failure propagates), copy self to the temp directory (failure
propagates), look for the host's main window — when present send it one
`WM_CLOSE` and select the restart directive, otherwise select the
do-not-restart directive — then request elevated execution of the temp
copy with the handoff arguments, returning that request's outcome. -/
def InstallNewVersionStage1 (env : Stage1Env) : Bool × List Effect :=
  match ObtainInstallerPath env with
  | (.error _, effs) => (false, effs)
  | (.ok installer, effs) =>
    if env.copySelfOk then
      let closeEffs : List Effect :=
        match env.ptMainWindow with
        | some h => [.sendClose h]
        | none => []
      let directive :=
        if env.ptMainWindow.isSome then UPDATE_STAGE2_RESTART_PT
        else UPDATE_STAGE2_DONT_START_PT
      (env.elevatedLaunchOk,
        effs ++ [Effect.copySelf env.tempCopyPath] ++ closeEffs
          ++ [Effect.elevatedLaunch env.tempCopyPath
                (stage1Arguments installer env.moduleFolderPath directive)])
    else
      (false, effs ++ [Effect.copySelf env.tempCopyPath])

/-- The outcome of one process invocation: either a normal exit with a
code and the effect trace, or an out-of-bounds read of the
`CommandLineToArgvW` array at the given index (undefined behaviour in the
source — there is no defined exit in that case). -/
inductive WinMainOutcome
  | exited (code : Nat) (effects : List Effect)
  | outOfBoundsRead (argIndex : Nat) (effects : List Effect)
deriving DecidableEq, Repr

/-- The environment of one `WinMain` invocation: the Stage-1 and Stage-2
oracles plus `timeutil::now()` as observed by the failure handlers'
stores. -/
structure WinMainEnv where
  stage1 : Stage1Env
  stage2 : Stage2Env
  failNow : Nat

/-- `WinMain` (lines 201-245): fewer than two arguments exits with code 1
before doing anything; the stage-1 token runs Stage 1 and on failure
stores the `errorDownloading` record; the stage-2 token reads
`args[2..4]` with no bound check — when they exist it runs Stage 2
(comparing `args[4]` with the restart token) and on failure stores the
`errorDownloading` record; any other action falls through to `return 0`.
The exit code is the C++ `return failed` conversion: `1` on failure, `0`
on success. -/
def WinMain (env : WinMainEnv) (args : List String) : WinMainOutcome :=
  match args with
  | _ :: action :: rest =>
    if action = UPDATE_NOW_LAUNCH_STAGE1 then
      let r := InstallNewVersionStage1 env.stage1
      if r.1 then .exited 0 r.2
      else .exited 1 (r.2 ++ [.storeState (errorDownloadingRecord env.failNow)])
    else if action = UPDATE_NOW_LAUNCH_STAGE2 then
      match rest with
      | installerPath :: installDir :: restartArg :: _ =>
        let r := InstallNewVersionStage2 env.stage2 installerPath installDir
          (restartArg == UPDATE_STAGE2_RESTART_PT)
        if r.1 then .exited 0 r.2
        else .exited 1 (r.2 ++ [.storeState (errorDownloadingRecord env.failNow)])
      | _ => .outOfBoundsRead (2 + rest.length) []
    else .exited 0 []
  | _ => .exited 1 []

/-- The effect trace of an invocation outcome. -/
def WinMainOutcome.effects : WinMainOutcome → List Effect
  | .exited _ effs => effs
  | .outOfBoundsRead _ effs => effs

/-- The exit code of an invocation outcome; `none` when the invocation
hit undefined behaviour instead of exiting. -/
def WinMainOutcome.exitCode : WinMainOutcome → Option Nat
  | .exited c _ => some c
  | .outOfBoundsRead _ _ => none

/-- The persisted record after replaying a trace's stores over an initial
record: each `storeState` replaces the whole record. -/
def finalState (init : UpdateState) (effs : List Effect) : UpdateState :=
  effs.foldl (fun s e => match e with | .storeState s2 => s2 | _ => s) init

/-- Recognizer for close requests, used to count them in a trace. -/
def Effect.isCloseRequest : Effect → Bool
  | .sendClose _ => true
  | _ => false

end PowerToysUpdate

namespace PowerToysUpdate

example : dispatchInstaller "Update.MSI" = .msiPackage := by decide

example : dispatchInstaller "installer.exe" = .bootstrapperExecutable := by decide

example :
    InstallNewVersionStage2 ⟨0, true, 0, true, 7⟩ "a.msi" "C:\\PT" true =
      (true, [.runMsi "a.msi", .removeFile "a.msi", .storeState (upToDateRecord 7),
        .launchProcess "C:\\PT\\PowerToys.exe" UPDATE_REPORT_SUCCESS]) := by decide

/-- A concrete Stage-1 environment used by witnesses and counterexamples:
state `readyToInstall` with a downloaded `update.msi` that exists on
disk, host window present, all external calls succeeding. -/
def sampleStage1Env : Stage1Env :=
  { persisted :=
      { state := .readyToInstall
        downloadedInstallerFilename := "update.msi"
        githubUpdateLastCheckedDate := some 5 }
    githubVersionInfo := some .downloadInfo
    downloadResult := some "C:\\Temp\\installer.exe"
    pendingUpdatesPath := "C:\\Pending"
    fileExists := fun _ => true
    copySelfOk := true
    tempCopyPath := "C:\\Temp\\PowerToys.Update.exe"
    ptMainWindow := some 42
    moduleFolderPath := "C:\\Program Files\\PowerToys"
    elevatedLaunchOk := true }

/-- A concrete Stage-2 environment where the installer succeeds but the
host relaunch request fails. -/
def sampleStage2EnvRelaunchFail : Stage2Env :=
  { msiResult := 0
    shellExecInstallerOk := true
    bootstrapperExitCode := 0
    relaunchOk := false
    now := 7 }

/-- A concrete whole-invocation environment built from the samples. -/
def sampleEnv : WinMainEnv :=
  { stage1 := sampleStage1Env
    stage2 := sampleStage2EnvRelaunchFail
    failNow := 9 }

example :
    WinMain sampleEnv ["PowerToys.Update.exe", "bogus_action"] = .exited 0 [] := by
  decide

example :
    WinMain sampleEnv ["PowerToys.Update.exe", UPDATE_NOW_LAUNCH_STAGE2] =
      .outOfBoundsRead 2 [] := by decide

example :
    WinMain sampleEnv
      ["PowerToys.Update.exe", UPDATE_NOW_LAUNCH_STAGE2, "a.msi",
        "C:\\Program Files\\PowerToys", UPDATE_STAGE2_RESTART_PT] =
      .exited 1
        [.runMsi "a.msi", .removeFile "a.msi", .storeState (upToDateRecord 7),
          .launchProcess "C:\\Program Files\\PowerToys\\PowerToys.exe" UPDATE_REPORT_SUCCESS,
          .storeState (errorDownloadingRecord 9)] := by decide

example :
    InstallNewVersionStage1 sampleStage1Env =
      (true,
        [.copySelf "C:\\Temp\\PowerToys.Update.exe", .sendClose 42,
          .elevatedLaunch "C:\\Temp\\PowerToys.Update.exe"
            (stage1Arguments "C:\\Pending\\update.msi"
              "C:\\Program Files\\PowerToys" UPDATE_STAGE2_RESTART_PT)]) := by
  decide

/-- Every effect the installer path resolver emits is a metadata fetch or
a download: in particular it performs no state store, no close request
and no process launch. -/
lemma obtain_effects_cases (env : Stage1Env) :
    ∀ e ∈ (ObtainInstallerPath env).2,
      e = Effect.getGithubVersionInfo ∨ e = Effect.downloadNewVersion := by
  intro e he
  unfold ObtainInstallerPath at he
  split at he
  · cases hgh : env.githubVersionInfo with
    | none => rw [hgh] at he; simp at he; simp [he]
    | some vi =>
      cases vi <;> rw [hgh] at he
      · simp at he; simp [he]
      · cases hdl : env.downloadResult <;> rw [hdl] at he <;> simp at he <;>
          rcases he with h | h <;> simp [h]
  · split at he
    · split at he <;> simp at he
    · simp at he

/-- Stage 1 never writes the persisted state itself: its trace holds no
`storeState` effect (the failure write is done by `WinMain`). -/
lemma storeState_not_mem_stage1 (env : Stage1Env) (s : UpdateState) :
    Effect.storeState s ∉ (InstallNewVersionStage1 env).2 := by
  intro hmem
  have hobt := obtain_effects_cases env
  unfold InstallNewVersionStage1 at hmem
  rcases hres : ObtainInstallerPath env with ⟨r, effs⟩
  rw [hres] at hmem hobt
  have hno : Effect.storeState s ∉ effs := by
    intro h
    rcases hobt _ h with h2 | h2 <;> simp at h2
  cases r with
  | error f => exact hno (by simpa using hmem)
  | ok installer =>
    by_cases hcopy : env.copySelfOk = true
    · cases hwin : env.ptMainWindow with
      | none => simp [hcopy, hwin] at hmem; exact hno hmem
      | some h => simp [hcopy, hwin] at hmem; exact hno hmem
    · rw [Bool.not_eq_true] at hcopy
      simp [hcopy] at hmem
      exact hno hmem

/-- The installer-run effects hold no `storeState`. -/
lemma storeState_not_mem_run (installer_path : String) (s : UpdateState) :
    Effect.storeState s ∉ stage2RunEffects installer_path := by
  unfold stage2RunEffects
  split <;> simp

/-- The only `storeState` effect Stage 2 can emit is the post-success
`upToDate` record carrying the timestamp of that run. -/
lemma storeState_mem_stage2 (env : Stage2Env)
    (installer_path install_path : String) (launch_powertoys : Bool)
    (s : UpdateState)
    (hmem : Effect.storeState s ∈
      (InstallNewVersionStage2 env installer_path install_path launch_powertoys).2) :
    s = upToDateRecord env.now := by
  by_cases hs : installerSucceeds env installer_path = true
  · cases launch_powertoys <;>
      simp [InstallNewVersionStage2, hs, storeState_not_mem_run] at hmem <;>
      exact hmem
  · rw [Bool.not_eq_true] at hs
    simp [InstallNewVersionStage2, hs] at hmem
    exact absurd hmem (storeState_not_mem_run _ _)

/-- C5: the installer path resolver dispatches purely on the persisted
status.  For `readyToInstall` with the derived file present it returns
exactly the derived path with an empty effect trace (so the download
collaborator is never invoked); for `readyToInstall` with the file
missing it fails with `MissingDownloadedInstaller`, again with no
effects; for every status outside
`{readyToDownload, errorDownloading, readyToInstall}` it fails with
`InvalidStateForInstall`. -/
theorem obtainInstallerPath_dispatch (env : Stage1Env) :
    (env.persisted.state = .readyToInstall →
      env.fileExists (derivedInstallerPath env) = true →
      ObtainInstallerPath env = (.ok (derivedInstallerPath env), []))
    ∧ (env.persisted.state = .readyToInstall →
      env.fileExists (derivedInstallerPath env) = false →
      ObtainInstallerPath env = (.error .MissingDownloadedInstaller, []))
    ∧ (env.persisted.state ≠ .readyToDownload →
      env.persisted.state ≠ .errorDownloading →
      env.persisted.state ≠ .readyToInstall →
      ObtainInstallerPath env = (.error .InvalidStateForInstall, [])) := by
  refine ⟨?_, ?_, ?_⟩
  · intro h1 h2
    simp [ObtainInstallerPath, h1, h2]
  · intro h1 h2
    simp [ObtainInstallerPath, h1, h2]
  · intro h1 h2 h3
    simp [ObtainInstallerPath, h1, h2, h3]

/-- Witness for `obtainInstallerPath_dispatch` at the sample environment:
`readyToInstall` with the file present resolves to the derived path with
no external effects. -/
theorem obtainInstallerPath_dispatch_witness :
    ObtainInstallerPath sampleStage1Env = (.ok "C:\\Pending\\update.msi", []) :=
  (obtainInstallerPath_dispatch sampleStage1Env).1 rfl rfl

/-- C3: when the dispatched installer succeeds, Stage 2 removes the
installer file and then stores the `upToDate` record with cleared
filename and the current timestamp — and the trace shows the store
strictly after the installer-run effect; when the installer does not
succeed, Stage 2 emits no `storeState` at all, so persisted state never
claims `upToDate` for a failed or unfinished install. -/
theorem stage2_success_postcondition (env : Stage2Env)
    (installer_path install_path : String) (launch_powertoys : Bool) :
    (installerSucceeds env installer_path = true →
      InstallNewVersionStage2 env installer_path install_path launch_powertoys =
        ((if launch_powertoys then env.relaunchOk else true),
          stage2RunEffects installer_path
            ++ [.removeFile (wstrToLower installer_path),
                .storeState (upToDateRecord env.now)]
            ++ (if launch_powertoys then
                  [Effect.launchProcess (install_path ++ "\\PowerToys.exe")
                    UPDATE_REPORT_SUCCESS]
                else [])))
    ∧ (installerSucceeds env installer_path = false →
      ∀ s : UpdateState,
        Effect.storeState s ∉
          (InstallNewVersionStage2 env installer_path install_path
            launch_powertoys).2) := by
  constructor
  · intro h
    cases launch_powertoys <;> simp [InstallNewVersionStage2, h]
  · intro h s
    simp [InstallNewVersionStage2, h]
    exact storeState_not_mem_run _ _

/-- Witness for `stage2_success_postcondition`: a successful MSI run with
no relaunch requested removes `a.msi` and stores the `upToDate` record. -/
theorem stage2_success_postcondition_witness :
    InstallNewVersionStage2 ⟨0, true, 0, true, 7⟩ "a.msi" "C:\\PT" false =
      (true, [.runMsi "a.msi", .removeFile "a.msi",
        .storeState (upToDateRecord 7)]) := by
  have h := (stage2_success_postcondition ⟨0, true, 0, true, 7⟩ "a.msi" "C:\\PT" false).1
    (by decide)
  simpa using h

/-- C4: when the dispatched installer fails, Stage 2 returns `false`
having emitted only the installer-run effect — in particular no
`removeFile`, so the installer file is left in place — and the stage-2
branch of `WinMain` then stores the `errorDownloading` record with
cleared filename before exiting with code 1. -/
theorem stage2_failure_postcondition (env : WinMainEnv)
    (prog installer_path install_path restartArg : String)
    (hfail : installerSucceeds env.stage2 installer_path = false) :
    InstallNewVersionStage2 env.stage2 installer_path install_path
        (restartArg == UPDATE_STAGE2_RESTART_PT) =
      (false, stage2RunEffects installer_path)
    ∧ (∀ p, Effect.removeFile p ∉ stage2RunEffects installer_path)
    ∧ WinMain env
        [prog, UPDATE_NOW_LAUNCH_STAGE2, installer_path, install_path, restartArg] =
      .exited 1 (stage2RunEffects installer_path
        ++ [.storeState (errorDownloadingRecord env.failNow)]) := by
  have hstage2 : InstallNewVersionStage2 env.stage2 installer_path install_path
      (restartArg == UPDATE_STAGE2_RESTART_PT) =
      (false, stage2RunEffects installer_path) := by
    simp [InstallNewVersionStage2, hfail]
  refine ⟨hstage2, ?_, ?_⟩
  · intro p
    unfold stage2RunEffects
    split <;> simp
  · simp only [WinMain]
    rw [if_neg (by decide)]
    simp [hstage2]

/-- Witness for `stage2_failure_postcondition`: a bootstrapper exiting
with code 1603 leaves the file alone and `WinMain` stores
`errorDownloading` and exits 1. -/
theorem stage2_failure_postcondition_witness :
    WinMain ⟨sampleStage1Env, ⟨0, true, 1603, true, 7⟩, 9⟩
        ["PowerToys.Update.exe", UPDATE_NOW_LAUNCH_STAGE2, "installer.exe",
          "C:\\PT", UPDATE_STAGE2_RESTART_PT] =
      .exited 1 [.runBootstrapper "installer.exe",
        .storeState (errorDownloadingRecord 9)] := by
  have h := (stage2_failure_postcondition ⟨sampleStage1Env, ⟨0, true, 1603, true, 7⟩, 9⟩
    "PowerToys.Update.exe" "installer.exe" "C:\\PT" UPDATE_STAGE2_RESTART_PT
    (by decide)).2.2
  simpa [stage2RunEffects, dispatchInstaller, wstrToLower, wstrEndsWith] using h

/-- The persisted-record invariant of the spec: the downloaded-installer
filename is populated exactly when the status is `readyToInstall`. -/
def filenameStatusInvariant (s : UpdateState) : Prop :=
  s.downloadedInstallerFilename ≠ "" ↔ s.state = .readyToInstall

/-- C6: every `storeState` the program performs — the stage-1 failure
write, the stage-2 failure write and the stage-2 success write — sets a
status other than `readyToInstall` with a cleared filename, so each
written record satisfies the filename/status invariant. -/
theorem store_writes_preserve_invariant (env : WinMainEnv) (args : List String)
    (s : UpdateState)
    (hmem : Effect.storeState s ∈ (WinMain env args).effects) :
    s.downloadedInstallerFilename = "" ∧ s.state ≠ .readyToInstall ∧
      filenameStatusInvariant s := by
  have hne : UPDATE_NOW_LAUNCH_STAGE2 ≠ UPDATE_NOW_LAUNCH_STAGE1 := by decide
  have key : s = upToDateRecord env.stage2.now ∨
      s = errorDownloadingRecord env.failNow := by
    match args with
    | [] => simp [WinMain, WinMainOutcome.effects] at hmem
    | [a0] => simp [WinMain, WinMainOutcome.effects] at hmem
    | a0 :: action :: rest =>
      by_cases h1 : action = UPDATE_NOW_LAUNCH_STAGE1
      · by_cases hr : (InstallNewVersionStage1 env.stage1).1 = true
        · simp [WinMain, h1, hr, WinMainOutcome.effects] at hmem
          exact absurd hmem (storeState_not_mem_stage1 _ _)
        · rw [Bool.not_eq_true] at hr
          simp [WinMain, h1, hr, WinMainOutcome.effects,
            List.mem_append] at hmem
          rcases hmem with h | h
          · exact absurd h (storeState_not_mem_stage1 _ _)
          · exact Or.inr h
      · by_cases h2 : action = UPDATE_NOW_LAUNCH_STAGE2
        · match rest with
          | [] => simp [WinMain, h1, h2, hne, WinMainOutcome.effects] at hmem
          | [p] => simp [WinMain, h1, h2, hne, WinMainOutcome.effects] at hmem
          | [p, d] => simp [WinMain, h1, h2, hne, WinMainOutcome.effects] at hmem
          | p :: d :: ra :: rest2 =>
            by_cases hr : (InstallNewVersionStage2 env.stage2 p d
                (ra == UPDATE_STAGE2_RESTART_PT)).1 = true
            · simp [WinMain, h1, h2, hne, hr, WinMainOutcome.effects] at hmem
              exact Or.inl (storeState_mem_stage2 _ _ _ _ _ hmem)
            · rw [Bool.not_eq_true] at hr
              simp [WinMain, h1, h2, hne, hr, WinMainOutcome.effects,
                List.mem_append] at hmem
              rcases hmem with h | h
              · exact Or.inl (storeState_mem_stage2 _ _ _ _ _ h)
              · exact Or.inr h
        · simp [WinMain, h1, h2, WinMainOutcome.effects] at hmem
  rcases key with h | h <;> subst h <;>
    simp [upToDateRecord, errorDownloadingRecord, filenameStatusInvariant]

/-- Witness for `store_writes_preserve_invariant`: the record stored by a
failing stage-2 invocation is cleared and not `readyToInstall`. -/
theorem store_writes_preserve_invariant_witness :
    (errorDownloadingRecord 9).downloadedInstallerFilename = "" ∧
      (errorDownloadingRecord 9).state ≠ .readyToInstall ∧
      filenameStatusInvariant (errorDownloadingRecord 9) :=
  store_writes_preserve_invariant ⟨sampleStage1Env, ⟨0, true, 1603, true, 7⟩, 9⟩
    ["PowerToys.Update.exe", UPDATE_NOW_LAUNCH_STAGE2, "installer.exe", "C:\\PT",
      UPDATE_STAGE2_RESTART_PT]
    (errorDownloadingRecord 9) (by decide)

/-- Characterwise lowercase-equality lifts to the mapped strings. -/
lemma map_towlower_of_forall2 (l1 l2 : List Char)
    (h : List.Forall₂ (fun a b => towlower a = towlower b) l1 l2) :
    l1.map towlower = l2.map towlower := by
  induction h with
  | nil => rfl
  | cons hab _ ih => simp [List.map_cons, hab, ih]

/-- C7: installer dispatch lowercases the path first, so two paths whose
characters agree up to case dispatch identically; a path whose lowered
form ends in `.msi` goes to the MSI package-installer branch and every
other path goes to the bootstrapper branch. -/
theorem dispatch_extension_casing (p1 p2 : String)
    (hcase : List.Forall₂ (fun a b => towlower a = towlower b) p1.data p2.data) :
    dispatchInstaller p1 = dispatchInstaller p2
    ∧ dispatchInstaller "update.msi" = .msiPackage
    ∧ (∀ p, dispatchInstaller p = .msiPackage ↔
        wstrEndsWith (wstrToLower p) ".msi" = true)
    ∧ (∀ p, dispatchInstaller p = .bootstrapperExecutable ↔
        wstrEndsWith (wstrToLower p) ".msi" = false) := by
  have hlow : wstrToLower p1 = wstrToLower p2 :=
    congrArg String.mk (map_towlower_of_forall2 _ _ hcase)
  refine ⟨?_, by decide, ?_, ?_⟩
  · unfold dispatchInstaller
    rw [hlow]
  · intro p
    unfold dispatchInstaller
    split <;> simp_all
  · intro p
    unfold dispatchInstaller
    split <;> simp_all

/-- Witness for `dispatch_extension_casing`: `"Update.MSI"` and
`"update.msi"` dispatch identically (both to the MSI branch). -/
theorem dispatch_extension_casing_witness :
    dispatchInstaller "Update.MSI" = dispatchInstaller "update.msi" :=
  (dispatch_extension_casing "Update.MSI" "update.msi" (by decide)).1

/-- C8: in Stage 1, once the installer path is resolved and the self-copy
succeeds, an existing host main window receives exactly one close
request and the handoff arguments end in the restart directive; with no
window, no close request is issued and the arguments end in the
do-not-restart directive. -/
theorem stage1_window_close_directive (env : Stage1Env) (installer : String)
    (effs : List Effect)
    (hres : ObtainInstallerPath env = (.ok installer, effs))
    (hcopy : env.copySelfOk = true) :
    (∀ h, env.ptMainWindow = some h →
      InstallNewVersionStage1 env =
        (env.elevatedLaunchOk,
          effs ++ [.copySelf env.tempCopyPath, .sendClose h,
            .elevatedLaunch env.tempCopyPath
              (stage1Arguments installer env.moduleFolderPath
                UPDATE_STAGE2_RESTART_PT)])
      ∧ (InstallNewVersionStage1 env).2.countP Effect.isCloseRequest = 1)
    ∧ (env.ptMainWindow = none →
      InstallNewVersionStage1 env =
        (env.elevatedLaunchOk,
          effs ++ [.copySelf env.tempCopyPath,
            .elevatedLaunch env.tempCopyPath
              (stage1Arguments installer env.moduleFolderPath
                UPDATE_STAGE2_DONT_START_PT)])
      ∧ (InstallNewVersionStage1 env).2.countP Effect.isCloseRequest = 0) := by
  have heffs0 : effs.countP Effect.isCloseRequest = 0 := by
    rw [List.countP_eq_zero]
    intro e he
    have hobt := obtain_effects_cases env
    rw [hres] at hobt
    rcases hobt e he with h | h <;> simp [h, Effect.isCloseRequest]
  constructor
  · intro h hwin
    have hdef : InstallNewVersionStage1 env =
        (env.elevatedLaunchOk,
          effs ++ [.copySelf env.tempCopyPath, .sendClose h,
            .elevatedLaunch env.tempCopyPath
              (stage1Arguments installer env.moduleFolderPath
                UPDATE_STAGE2_RESTART_PT)]) := by
      unfold InstallNewVersionStage1
      rw [hres]
      simp [hcopy, hwin]
    refine ⟨hdef, ?_⟩
    rw [hdef]
    simp [List.countP_append, List.countP_cons, heffs0, Effect.isCloseRequest]
  · intro hwin
    have hdef : InstallNewVersionStage1 env =
        (env.elevatedLaunchOk,
          effs ++ [.copySelf env.tempCopyPath,
            .elevatedLaunch env.tempCopyPath
              (stage1Arguments installer env.moduleFolderPath
                UPDATE_STAGE2_DONT_START_PT)]) := by
      unfold InstallNewVersionStage1
      rw [hres]
      simp [hcopy, hwin]
    refine ⟨hdef, ?_⟩
    rw [hdef]
    simp [List.countP_append, List.countP_cons, heffs0, Effect.isCloseRequest]

/-- Witness for `stage1_window_close_directive`: with the sample
environment's window handle 42, Stage 1 sends one close request and
hands off the restart directive. -/
theorem stage1_window_close_directive_witness :
    InstallNewVersionStage1 sampleStage1Env =
      (sampleStage1Env.elevatedLaunchOk,
        [] ++ [.copySelf sampleStage1Env.tempCopyPath, .sendClose 42,
          .elevatedLaunch sampleStage1Env.tempCopyPath
            (stage1Arguments "C:\\Pending\\update.msi"
              sampleStage1Env.moduleFolderPath UPDATE_STAGE2_RESTART_PT)])
    ∧ (InstallNewVersionStage1 sampleStage1Env).2.countP Effect.isCloseRequest = 1 :=
  (stage1_window_close_directive sampleStage1Env "C:\\Pending\\update.msi" []
    rfl rfl).1 42 rfl

/-- C1 counterexample: in the sample run the MSI install succeeds
(`msiResult = 0`) and the relaunch request fails (`relaunchOk = false`);
the process does exit with code 1, but the persisted state does not
remain `upToDate`: replaying the trace over the freshly written
`upToDate` record leaves status `errorDownloading`, because `WinMain`'s
stage-2 failure handler runs one more store. -/
theorem relaunchFailure_cex :
    installerSucceeds sampleEnv.stage2 "a.msi" = true
    ∧ sampleEnv.stage2.relaunchOk = false
    ∧ (WinMain sampleEnv ["PowerToys.Update.exe", UPDATE_NOW_LAUNCH_STAGE2,
        "a.msi", "C:\\Program Files\\PowerToys",
        UPDATE_STAGE2_RESTART_PT]).exitCode = some 1
    ∧ (finalState (upToDateRecord 7)
        (WinMain sampleEnv ["PowerToys.Update.exe", UPDATE_NOW_LAUNCH_STAGE2,
          "a.msi", "C:\\Program Files\\PowerToys",
          UPDATE_STAGE2_RESTART_PT]).effects).state ≠ UpdateStatus.upToDate := by
  decide

/-- C1 amended: when Stage 2's installer succeeds but the host relaunch
request fails, the process exits with code 1 and the persisted state
does not stay `upToDate` — `WinMain`'s failure handler rewrites it to
`errorDownloading` with cleared filename, after the post-install
`upToDate` store visible earlier in the same trace. -/
theorem relaunchFailure_rewrites_state (env : WinMainEnv)
    (prog installer_path install_path : String) (init : UpdateState)
    (hsucc : installerSucceeds env.stage2 installer_path = true)
    (hfail : env.stage2.relaunchOk = false) :
    WinMain env [prog, UPDATE_NOW_LAUNCH_STAGE2, installer_path, install_path,
        UPDATE_STAGE2_RESTART_PT] =
      .exited 1 (stage2RunEffects installer_path
        ++ [.removeFile (wstrToLower installer_path),
            .storeState (upToDateRecord env.stage2.now),
            .launchProcess (install_path ++ "\\PowerToys.exe") UPDATE_REPORT_SUCCESS,
            .storeState (errorDownloadingRecord env.failNow)])
    ∧ finalState init (stage2RunEffects installer_path
        ++ [.removeFile (wstrToLower installer_path),
            .storeState (upToDateRecord env.stage2.now),
            .launchProcess (install_path ++ "\\PowerToys.exe") UPDATE_REPORT_SUCCESS,
            .storeState (errorDownloadingRecord env.failNow)]) =
      errorDownloadingRecord env.failNow := by
  have hstage2 : InstallNewVersionStage2 env.stage2 installer_path install_path
      (UPDATE_STAGE2_RESTART_PT == UPDATE_STAGE2_RESTART_PT) =
      (false, stage2RunEffects installer_path
        ++ [.removeFile (wstrToLower installer_path),
            .storeState (upToDateRecord env.stage2.now),
            .launchProcess (install_path ++ "\\PowerToys.exe")
              UPDATE_REPORT_SUCCESS]) := by
    simp [InstallNewVersionStage2, hsucc, hfail]
  constructor
  · simp only [WinMain]
    rw [if_neg (by decide), hstage2]
    simp
  · cases hd : dispatchInstaller installer_path <;>
      simp [stage2RunEffects, hd, finalState]

/-- Witness for `relaunchFailure_rewrites_state` at the sample
environment. -/
theorem relaunchFailure_rewrites_state_witness :
    WinMain sampleEnv ["PowerToys.Update.exe", UPDATE_NOW_LAUNCH_STAGE2,
        "a.msi", "C:\\Program Files\\PowerToys", UPDATE_STAGE2_RESTART_PT] =
      .exited 1 [.runMsi "a.msi", .removeFile "a.msi",
        .storeState (upToDateRecord 7),
        .launchProcess "C:\\Program Files\\PowerToys\\PowerToys.exe"
          UPDATE_REPORT_SUCCESS,
        .storeState (errorDownloadingRecord 9)] := by
  have h := (relaunchFailure_rewrites_state sampleEnv "PowerToys.Update.exe"
    "a.msi" "C:\\Program Files\\PowerToys" (upToDateRecord 7)
    (by decide) rfl).1
  simpa [stage2RunEffects, dispatchInstaller, wstrToLower, wstrEndsWith,
    towlower] using h

/-- C2 counterexample: an invocation whose action is neither stage token
exits with code 0 — not the claimed non-zero code 1 — while performing
no effect at all. -/
theorem unrecognizedAction_cex :
    WinMain sampleEnv ["PowerToys.Update.exe", "bogus_action"] = .exited 0 []
    ∧ (WinMain sampleEnv ["PowerToys.Update.exe", "bogus_action"]).exitCode ≠
        some 1 := by
  decide

/-- C2 amended: for every invocation carrying an action argument that is
neither stage token, the process exits with code 0 (falling through to
`return 0`), with an empty effect trace — so no persisted-state mutation
and no process launch. -/
theorem unrecognizedAction_exits_zero (env : WinMainEnv) (a0 action : String)
    (rest : List String)
    (h1 : action ≠ UPDATE_NOW_LAUNCH_STAGE1)
    (h2 : action ≠ UPDATE_NOW_LAUNCH_STAGE2) :
    WinMain env (a0 :: action :: rest) = .exited 0 [] := by
  simp [WinMain, h1, h2]

/-- Witness for `unrecognizedAction_exits_zero` at a concrete bogus
action. -/
theorem unrecognizedAction_exits_zero_witness :
    WinMain sampleEnv ("PowerToys.Update.exe" :: "bogus_action" :: []) =
      .exited 0 [] :=
  unrecognizedAction_exits_zero sampleEnv "PowerToys.Update.exe" "bogus_action"
    [] (by decide) (by decide)

/-- C9: `WinMain` guards only `nArgs < 2`; a stage-2 invocation with
fewer than three further arguments reaches the unchecked accesses
`args[2]`, `args[3]`, `args[4]` and reads past the end of the
`CommandLineToArgvW` array (undefined behaviour) instead of exiting with
a non-zero status: with 0, 1 or 2 further arguments the first
out-of-bounds index is 2, 3 or 4 respectively. -/
theorem stage2_missing_args_oob :
    WinMain sampleEnv ["PowerToys.Update.exe", UPDATE_NOW_LAUNCH_STAGE2] =
      .outOfBoundsRead 2 []
    ∧ WinMain sampleEnv ["PowerToys.Update.exe", UPDATE_NOW_LAUNCH_STAGE2,
        "a.msi"] = .outOfBoundsRead 3 []
    ∧ WinMain sampleEnv ["PowerToys.Update.exe", UPDATE_NOW_LAUNCH_STAGE2,
        "a.msi", "C:\\PT"] = .outOfBoundsRead 4 [] := by
  decide

/-- C10: the stage-2 restart directive is computed by equality with the
single restart token: any other fourth argument — recognized
do-not-restart token or not — behaves exactly like the do-not-restart
invocation, the trace contains no host relaunch, and the install still
proceeds (the trace begins with the installer-run effect). -/
theorem restart_directive_equality (env : WinMainEnv)
    (prog installer_path install_path a4 : String)
    (h : a4 ≠ UPDATE_STAGE2_RESTART_PT) :
    WinMain env [prog, UPDATE_NOW_LAUNCH_STAGE2, installer_path, install_path,
        a4] =
      WinMain env [prog, UPDATE_NOW_LAUNCH_STAGE2, installer_path, install_path,
        UPDATE_STAGE2_DONT_START_PT]
    ∧ (∀ f prms, Effect.launchProcess f prms ∉
        (WinMain env [prog, UPDATE_NOW_LAUNCH_STAGE2, installer_path,
          install_path, a4]).effects)
    ∧ ∃ rest, (WinMain env [prog, UPDATE_NOW_LAUNCH_STAGE2, installer_path,
        install_path, a4]).effects = stage2RunEffects installer_path ++ rest := by
  have hb1 : (a4 == UPDATE_STAGE2_RESTART_PT) = false := by
    simp [h]
  have hb2 : (UPDATE_STAGE2_DONT_START_PT == UPDATE_STAGE2_RESTART_PT) = false := by
    decide
  have hrunNoLaunch : ∀ f prms,
      Effect.launchProcess f prms ∉ stage2RunEffects installer_path := by
    intro f prms
    unfold stage2RunEffects
    split <;> simp
  have hmain : WinMain env [prog, UPDATE_NOW_LAUNCH_STAGE2, installer_path,
      install_path, a4] =
      WinMain env [prog, UPDATE_NOW_LAUNCH_STAGE2, installer_path, install_path,
        UPDATE_STAGE2_DONT_START_PT] := by
    simp only [WinMain]
    rw [hb1, hb2]
  refine ⟨hmain, ?_⟩
  rw [hmain]
  by_cases hs : installerSucceeds env.stage2 installer_path = true
  · have hstage2 : InstallNewVersionStage2 env.stage2 installer_path install_path
        (UPDATE_STAGE2_DONT_START_PT == UPDATE_STAGE2_RESTART_PT) =
        (true, stage2RunEffects installer_path
          ++ [.removeFile (wstrToLower installer_path),
              .storeState (upToDateRecord env.stage2.now)]) := by
      rw [hb2]
      simp [InstallNewVersionStage2, hs]
    constructor
    · intro f prms
      simp only [WinMain]
      rw [if_neg (by decide), hstage2]
      simp [WinMainOutcome.effects, hrunNoLaunch f prms]
    · refine ⟨[.removeFile (wstrToLower installer_path),
        .storeState (upToDateRecord env.stage2.now)], ?_⟩
      simp only [WinMain]
      rw [if_neg (by decide), hstage2]
      simp [WinMainOutcome.effects]
  · rw [Bool.not_eq_true] at hs
    have hstage2 : InstallNewVersionStage2 env.stage2 installer_path install_path
        (UPDATE_STAGE2_DONT_START_PT == UPDATE_STAGE2_RESTART_PT) =
        (false, stage2RunEffects installer_path) := by
      rw [hb2]
      simp [InstallNewVersionStage2, hs]
    constructor
    · intro f prms
      simp only [WinMain]
      rw [if_neg (by decide), hstage2]
      simp [WinMainOutcome.effects, hrunNoLaunch f prms]
    · refine ⟨[.storeState (errorDownloadingRecord env.failNow)], ?_⟩
      simp only [WinMain]
      rw [if_neg (by decide), hstage2]
      simp [WinMainOutcome.effects]

/-- Witness for `restart_directive_equality`: a malformed directive
`"yes_please"` behaves exactly like the do-not-restart token. -/
theorem restart_directive_equality_witness :
    WinMain sampleEnv ["PowerToys.Update.exe", UPDATE_NOW_LAUNCH_STAGE2,
        "a.msi", "C:\\PT", "yes_please"] =
      WinMain sampleEnv ["PowerToys.Update.exe", UPDATE_NOW_LAUNCH_STAGE2,
        "a.msi", "C:\\PT", UPDATE_STAGE2_DONT_START_PT] :=
  (restart_directive_equality sampleEnv "PowerToys.Update.exe" "a.msi" "C:\\PT"
    "yes_please" (by decide)).1

end PowerToysUpdate
